import Mathlib

/-!
Verification of `src/api_diagnostic.py` (emarknews-v2 diagnostic tool).

The script issues a single HTTP GET with a 5-second timeout and prints a
human-readable report: the status-code classification, the
`Access-Control-Allow-Origin` header inspection, and the JSON-parseability
of the body.  We embed it shallowly: the outcome of the one network call
(`requests.get`) is an input of the embedded function, each `print`
statement becomes an emitted `Line` value, and `render` gives the exact
text each `Line` prints.  The function also returns the list of HTTP
requests it issues, so that the single-request property is statable.
-/

/-- JSON values, the possible results of `response.json()`.
Numbers are modelled as integers. -/
inductive JsonValue where
  | null
  | bool (b : Bool)
  | num (n : Int)
  | str (s : String)
  | arr (items : List JsonValue)
  | obj (fields : List (String × JsonValue))

/-- Indentation of `n` spaces, for `json.dumps`. -/
def spaces (n : Nat) : String :=
  String.mk (List.replicate n ' ')

/-- Lower-case hexadecimal digit for `n < 16`. -/
def hexDigit (n : Nat) : Char :=
  if n < 10 then Char.ofNat (48 + n) else Char.ofNat (87 + n)

/-- Four lower-case hexadecimal digits of `n`, as Python's `'\\u%04x'`
formats a code point. -/
def hex4 (n : Nat) : String :=
  String.mk [hexDigit (n / 4096 % 16), hexDigit (n / 256 % 16),
             hexDigit (n / 16 % 16), hexDigit (n % 16)]

/-- Escaping of one character inside a JSON string literal, as
`json.dumps` with `ensure_ascii=False` writes it: the quote, the
backslash and the named control escapes `\n`, `\t`, `\r`, `\b`, `\f` get
their two-character forms, every other control character below U+0020
becomes `\u00xx`, and all remaining characters (non-ASCII included) pass
through raw. -/
def escapeChar (c : Char) : String :=
  if c = '"' then "\\\""
  else if c = '\\' then "\\\\"
  else if c = '\n' then "\\n"
  else if c = '\t' then "\\t"
  else if c = '\r' then "\\r"
  else if c = '\x08' then "\\b"
  else if c = '\x0c' then "\\f"
  else if c.toNat < 32 then "\\u" ++ hex4 c.toNat
  else String.singleton c

/-- A JSON string literal with quotes, as `json.dumps` writes it. -/
def jsonQuote (s : String) : String :=
  "\"" ++ String.join (s.data.map escapeChar) ++ "\""

mutual

/-- Serialization `json.dumps(v, indent=2, ensure_ascii=False)` at
indentation level `ind` (the indentation of the enclosing container). -/
def dumpsVal (ind : Nat) : JsonValue → String
  | .null => "null"
  | .bool true => "true"
  | .bool false => "false"
  | .num n => toString n
  | .str s => jsonQuote s
  | .arr [] => "[]"
  | .arr (x :: xs) =>
      "[\n" ++ dumpsArr (ind + 2) (x :: xs) ++ "\n" ++ spaces ind ++ "]"
  | .obj [] => "\x7b\x7d"
  | .obj (f :: fs) =>
      "\x7b\n" ++ dumpsObj (ind + 2) (f :: fs) ++ "\n" ++ spaces ind ++ "\x7d"

/-- Array items, one per line at indentation `ind`, separated by commas. -/
def dumpsArr (ind : Nat) : List JsonValue → String
  | [] => ""
  | [x] => spaces ind ++ dumpsVal ind x
  | x :: y :: xs => spaces ind ++ dumpsVal ind x ++ ",\n" ++ dumpsArr ind (y :: xs)

/-- Object fields, one per line at indentation `ind`, separated by commas. -/
def dumpsObj (ind : Nat) : List (String × JsonValue) → String
  | [] => ""
  | [(k, v)] => spaces ind ++ jsonQuote k ++ ": " ++ dumpsVal ind v
  | (k, v) :: g :: fs =>
      spaces ind ++ jsonQuote k ++ ": " ++ dumpsVal ind v ++ ",\n" ++
        dumpsObj ind (g :: fs)

end

/-- Top-level `json.dumps(v, indent=2, ensure_ascii=False)`. -/
def dumps (v : JsonValue) : String :=
  dumpsVal 0 v

/-- Python slicing `s[:n]`: the first `n` characters (code points) of `s`,
or all of `s` when it is shorter. -/
def pySlice (s : String) (n : Nat) : String :=
  String.mk (s.data.take n)

/-- The response snapshot delivered by a successful `requests.get`:
status code, header mapping, body text, and the outcome of
`response.json()` (`none` models `json.JSONDecodeError`). -/
structure Response where
  status_code : Int
  headers : List (String × String)
  text : String
  jsonBody : Option JsonValue

/-- Lower-casing of a string character by character, the case folding the
`requests` library applies to header names. -/
def lowerStr (s : String) : String :=
  String.mk (s.data.map Char.toLower)

/-- Case-insensitive header lookup, as `response.headers.get(name)` of the
`requests` library behaves (its header mapping is case-insensitive). -/
def headersGet (hs : List (String × String)) (name : String) : Option String :=
  (hs.find? (fun p => lowerStr p.1 = lowerStr name)).map (fun p => p.2)

/-- The outcome of the single `requests.get(url, timeout=5)` call:
a response, a timeout (`requests.exceptions.Timeout`), another request
failure carrying its message (`requests.exceptions.RequestException`), or
any other exception during the run (the `except Exception` fallback). -/
inductive FetchResult where
  | success (response : Response)
  | timeout
  | requestException (msg : String)
  | otherException (msg : String)

/-- One emitted report line; each constructor corresponds to one `print`
statement of `check_api_status`, carrying the dynamic data interpolated
into its f-string. -/
inductive Line where
  | start (url : String)
  | statusHeader (code : Int)
  | statusSuccess
  | statusNotFound
  | statusClientError
  | statusServerError
  | statusUnknown
  | corsTitle
  | corsValue (v : String)
  | corsAllOrigins
  | corsSingleOrigin (v : String)
  | corsMissing
  | corsMissingHint
  | bodyTitle
  | bodyValidJson
  | bodyJsonPreview (s : String)
  | bodyNotJson
  | bodyRawPreview (s : String)
  | timeoutError
  | requestError (msg : String)
  | unknownError (msg : String)
deriving DecidableEq

/-- The exact text each line prints (the f-string of the corresponding
`print` statement). -/
def render : Line → String
  | .start url => "🔍 \x27" ++ url ++ "\x27에 대한 진단을 시작합니다..."
  | .statusHeader code => "\n✅ 1. HTTP 상태 코드: " ++ toString code
  | .statusSuccess => "   (성공적인 응답입니다.)"
  | .statusNotFound => "   (오류: 해당 API 엔드포인트를 찾을 수 없습니다. URL을 확인하세요.)"
  | .statusClientError => "   (오류: 클라이언트 요청에 문제가 있습니다. 파라미터 등을 확인하세요.)"
  | .statusServerError => "   (오류: 서버 측에 문제가 발생했습니다. 서버 로그를 확인해야 합니다.)"
  | .statusUnknown => "   (알 수 없는 상태 코드입니다.)"
  | .corsTitle => "\n✅ 2. CORS 정책 헤더 확인"
  | .corsValue v => "   - \x27Access-Control-Allow-Origin\x27 헤더: " ++ v
  | .corsAllOrigins => "     (모든 도메인에서의 요청을 허용하고 있습니다.)"
  | .corsSingleOrigin v => "     (\x27" ++ v ++ "\x27 도메인만 요청이 허용됩니다.)"
  | .corsMissing => "   - ❌ \x27Access-Control-Allow-Origin\x27 헤더가 응답에 없습니다."
  | .corsMissingHint => "     (이것이 프론트엔드에서 데이터를 받지 못하는 주된 원인일 수 있습니다!)"
  | .bodyTitle => "\n✅ 3. 응답 데이터 형식 확인"
  | .bodyValidJson => "   - 응답 데이터는 유효한 JSON 형식입니다."
  | .bodyJsonPreview s => "   - 미리보기: " ++ s ++ "..."
  | .bodyNotJson => "   - ❌ 응답 데이터가 JSON 형식이 아닙니다. 서버 응답을 확인하세요."
  | .bodyRawPreview s => "   - 실제 응답 내용 (앞부분): " ++ s ++ "..."
  | .timeoutError => "\n❌ 오류: 요청 시간이 초과되었습니다. 서버가 응답하지 않거나 네트워크에 문제가 있을 수 있습니다."
  | .requestError msg => "\n❌ 오류: 요청 중 문제가 발생했습니다. - " ++ msg
  | .unknownError msg => "\n❌ 알 수 없는 오류가 발생했습니다. - " ++ msg

/-- One outbound HTTP GET request, with its timeout in seconds. -/
structure HttpRequest where
  url : String
  timeout : Nat
deriving DecidableEq

/-- Lines 22-31 of the source: the status-code classification, an
if/elif chain checked in order (2xx, then 404, then 4xx, then 5xx,
else unknown). -/
def classifyStatus (code : Int) : Line :=
  if 200 ≤ code ∧ code < 300 then Line.statusSuccess
  else if code = 404 then Line.statusNotFound
  else if 400 ≤ code ∧ code < 500 then Line.statusClientError
  else if 500 ≤ code ∧ code < 600 then Line.statusServerError
  else Line.statusUnknown

/-- Lines 36-44 of the source: the CORS branch on the looked-up header.
Python tests `if cors_header:`, which is falsy both for `None` and for
the empty string. -/
def corsLines : Option String → List Line
  | some v =>
      if v = "" then [Line.corsMissing, Line.corsMissingHint]
      else
        Line.corsValue v ::
          (if v = "*" then [Line.corsAllOrigins] else [Line.corsSingleOrigin v])
  | none => [Line.corsMissing, Line.corsMissingHint]

/-- Lines 48-54 of the source: the body-format inspection. The inner
`try` parses the body as JSON; on success the pretty-printed dump is
sliced to 500 characters, on `json.JSONDecodeError` the raw text is
sliced to 300 characters.  Both f-strings append a literal marker. -/
def bodyLines (response : Response) : List Line :=
  match response.jsonBody with
  | some data =>
      [Line.bodyValidJson, Line.bodyJsonPreview (pySlice (dumps data) 500)]
  | none =>
      [Line.bodyNotJson, Line.bodyRawPreview (pySlice response.text 300)]

/-- The embedding of `check_api_status(url)`: given the outcome of the
single `requests.get(url, timeout=5)` call, return the requests issued
and the report lines printed.  All exception handlers of the source are
the non-success branches of the match; the function is total, so every
outcome returns normally. -/
def check_api_status (url : String) (fetch : FetchResult) :
    List HttpRequest × List Line :=
  (⟨url, 5⟩ :: [],
   Line.start url ::
     match fetch with
     | .success response =>
         [Line.statusHeader response.status_code,
          classifyStatus response.status_code,
          Line.corsTitle] ++
         corsLines (headersGet response.headers "Access-Control-Allow-Origin") ++
         [Line.bodyTitle] ++
         bodyLines response
     | .timeout => [Line.timeoutError]
     | .requestException msg => [Line.requestError msg]
     | .otherException msg => [Line.unknownError msg])

/-- The hardcoded target URL of the script. -/
def API_URL : String :=
  "https://emarknews-v2-production.up.railway.app/api/world/fast"

/-- The `__main__` block: run the diagnostic on the hardcoded URL; the
script then falls off its end, so the process exit code is 0. -/
def pythonMain (fetch : FetchResult) : List Line × Nat :=
  ((check_api_status API_URL fetch).2, 0)

/-- Is this line one of the five status-classification messages? -/
def isStatusClass : Line → Bool
  | .statusSuccess => true
  | .statusNotFound => true
  | .statusClientError => true
  | .statusServerError => true
  | .statusUnknown => true
  | _ => false

/-- Is this line part of one of the three inspection sections
(status classification, CORS header, body format)? -/
def isSectionLine : Line → Bool
  | .statusHeader _ => true
  | .statusSuccess => true
  | .statusNotFound => true
  | .statusClientError => true
  | .statusServerError => true
  | .statusUnknown => true
  | .corsTitle => true
  | .corsValue _ => true
  | .corsAllOrigins => true
  | .corsSingleOrigin _ => true
  | .corsMissing => true
  | .corsMissingHint => true
  | .bodyTitle => true
  | .bodyValidJson => true
  | .bodyJsonPreview _ => true
  | .bodyNotJson => true
  | .bodyRawPreview _ => true
  | _ => false

/-- Is this line one of the three lines reporting a present CORS header
(the value echo, the wildcard note, or the single-origin note)? -/
def isCorsPresentLine : Line → Bool
  | .corsValue _ => true
  | .corsAllOrigins => true
  | .corsSingleOrigin _ => true
  | _ => false

/-- A healthy response: status 200, wildcard CORS header, empty-object
JSON body. -/
def respOk : Response :=
  ⟨200, [("Access-Control-Allow-Origin", "*")], "\x7b\x7d", some (JsonValue.obj [])⟩

/-- A not-found response with no CORS header and a non-JSON body. -/
def resp404 : Response :=
  ⟨404, [], "Not Found", none⟩

/-- A response whose CORS header is present with the empty string as its
value. -/
def respEmptyCors : Response :=
  ⟨200, [("Access-Control-Allow-Origin", "")], "", none⟩

/-- A response allowing a single origin, with a lower-case header name. -/
def respSingle : Response :=
  ⟨204, [("access-control-allow-origin", "https://example.com")], "", none⟩

/-- A client-error response other than 404. -/
def respTeapot : Response :=
  ⟨418, [], "", none⟩

/-- A server-error response. -/
def resp500 : Response :=
  ⟨500, [], "", none⟩

/-- A response with a status code outside every classified range. -/
def resp700 : Response :=
  ⟨700, [], "", none⟩

theorem isStatusClass_classify (code : Int) :
    isStatusClass (classifyStatus code) = true := by
  unfold classifyStatus
  split_ifs <;> rfl

theorem countP_statusClass_corsLines (o : Option String) :
    (corsLines o).countP isStatusClass = 0 := by
  cases o with
  | none => rfl
  | some v =>
      simp only [corsLines]
      split_ifs <;> rfl

theorem countP_statusClass_bodyLines (r : Response) :
    (bodyLines r).countP isStatusClass = 0 := by
  cases hj : r.jsonBody <;> simp [bodyLines, hj, List.countP_cons, isStatusClass]

theorem isCorsPresent_classify (code : Int) :
    isCorsPresentLine (classifyStatus code) = false := by
  unfold classifyStatus
  split_ifs <;> rfl

theorem countP_corsPresent_bodyLines (r : Response) :
    (bodyLines r).countP isCorsPresentLine = 0 := by
  cases hj : r.jsonBody <;> simp [bodyLines, hj, List.countP_cons, isCorsPresentLine]

theorem pySlice_eq_of_length_le (s : String) (n : Nat) (h : s.data.length ≤ n) :
    pySlice s n = s := by
  cases s with
  | mk data => simp [pySlice, List.take_of_length_le h]

/-- Claim C1: for every invocation of `check_api_status`, on any URL and any
outcome of the single HTTP GET, the function catches the failure, prints
diagnostic text, and returns normally, so the process exits with code 0. -/
theorem C1_always_exits_zero (url : String) (fetch : FetchResult) :
    (pythonMain fetch).2 = 0 ∧ (check_api_status url fetch).2 ≠ [] := by
  refine ⟨rfl, ?_⟩
  simp [check_api_status]

/-- Claim C2: for every received response, exactly one status-classification
message is printed, chosen in order: 2xx is the successful-response message,
exactly 404 the endpoint-not-found message, any other 4xx the
client-request-problem message, 5xx the server-side-problem message, and
anything else the unknown-status-code message. -/
theorem C2_status_classification (url : String) (resp : Response) :
    (check_api_status url (.success resp)).2.countP isStatusClass = 1
    ∧ classifyStatus resp.status_code ∈ (check_api_status url (.success resp)).2
    ∧ (200 ≤ resp.status_code ∧ resp.status_code < 300 →
        classifyStatus resp.status_code = Line.statusSuccess)
    ∧ (resp.status_code = 404 →
        classifyStatus resp.status_code = Line.statusNotFound)
    ∧ (resp.status_code ≠ 404 ∧ 400 ≤ resp.status_code ∧ resp.status_code < 500 →
        classifyStatus resp.status_code = Line.statusClientError)
    ∧ (500 ≤ resp.status_code ∧ resp.status_code < 600 →
        classifyStatus resp.status_code = Line.statusServerError)
    ∧ (¬(200 ≤ resp.status_code ∧ resp.status_code < 300) →
        resp.status_code ≠ 404 →
        ¬(400 ≤ resp.status_code ∧ resp.status_code < 500) →
        ¬(500 ≤ resp.status_code ∧ resp.status_code < 600) →
        classifyStatus resp.status_code = Line.statusUnknown) := by
  refine ⟨?_, ?_, ?_, ?_, ?_, ?_, ?_⟩
  · simp only [check_api_status, List.countP_cons, List.countP_append,
      countP_statusClass_corsLines, countP_statusClass_bodyLines,
      isStatusClass_classify]
    norm_num [isStatusClass]
  · simp [check_api_status]
  · intro h
    unfold classifyStatus
    split_ifs <;> first | rfl | (exfalso; omega)
  · intro h
    unfold classifyStatus
    split_ifs <;> first | rfl | (exfalso; omega)
  · intro h
    unfold classifyStatus
    split_ifs <;> first | rfl | (exfalso; omega)
  · intro h
    unfold classifyStatus
    split_ifs <;> first | rfl | (exfalso; omega)
  · intro h1 h2 h3 h4
    unfold classifyStatus
    split_ifs <;> first | rfl | (exfalso; omega)

/-- Witness for C2 at concrete responses exercising all five branches. -/
theorem C2_status_classification_witness :
    (check_api_status "u" (.success resp404)).2.countP isStatusClass = 1
    ∧ classifyStatus respOk.status_code = Line.statusSuccess
    ∧ classifyStatus resp404.status_code = Line.statusNotFound
    ∧ classifyStatus respTeapot.status_code = Line.statusClientError
    ∧ classifyStatus resp500.status_code = Line.statusServerError
    ∧ classifyStatus resp700.status_code = Line.statusUnknown :=
  ⟨(C2_status_classification "u" resp404).1,
   (C2_status_classification "u" respOk).2.2.1 (by decide),
   (C2_status_classification "u" resp404).2.2.2.1 (by decide),
   (C2_status_classification "u" respTeapot).2.2.2.2.1 (by decide),
   (C2_status_classification "u" resp500).2.2.2.2.2.1 (by decide),
   (C2_status_classification "u" resp700).2.2.2.2.2.2
     (by decide) (by decide) (by decide) (by decide)⟩

/-- Claim C3: on timeout, `check_api_status` prints a timeout-specific
message and none of the three inspection sections are printed. -/
theorem C3_timeout_aborts (url : String) :
    (check_api_status url .timeout).2 = [Line.start url, Line.timeoutError]
    ∧ (check_api_status url .timeout).2.countP isSectionLine = 0 :=
  ⟨rfl, rfl⟩

/-- Claim C4: on any non-timeout transport error, `check_api_status` prints
a generic request-failure message that includes the underlying error text,
and none of the three inspection sections are printed. -/
theorem C4_transport_error (url msg : String) :
    (check_api_status url (.requestException msg)).2
      = [Line.start url, Line.requestError msg]
    ∧ render (Line.requestError msg)
      = "\n❌ 오류: 요청 중 문제가 발생했습니다. - " ++ msg
    ∧ (check_api_status url (.requestException msg)).2.countP isSectionLine = 0 :=
  ⟨rfl, rfl, rfl⟩

/-- Counterexample to claim C5 as stated: at a response whose
`Access-Control-Allow-Origin` header is present with the empty string as
its value, the header is present with a value other than "*", yet no
echo line is printed and the report flags the header as absent. -/
theorem C5_cors_counterexample :
    headersGet respEmptyCors.headers "Access-Control-Allow-Origin" = some ""
    ∧ ("" : String) ≠ "*"
    ∧ Line.corsValue "" ∉ (check_api_status "u" (.success respEmptyCors)).2
    ∧ Line.corsSingleOrigin "" ∉ (check_api_status "u" (.success respEmptyCors)).2
    ∧ Line.corsMissing ∈ (check_api_status "u" (.success respEmptyCors)).2 := by
  decide

/-- Claim C5 (amended): the `Access-Control-Allow-Origin` header is looked
up case-insensitively; if present with value exactly "*" the report states
all origins are allowed; if present with any other non-empty value the
report echoes that value as the single allowed origin; if absent, or
present with the empty string as its value, the report flags its absence
as a likely cause of cross-origin failures. -/
theorem C5_cors_inspection_amended (url : String) (resp : Response) (k v : String) :
    (lowerStr k = "access-control-allow-origin" →
      headersGet [(k, v)] "Access-Control-Allow-Origin" = some v)
    ∧ (headersGet resp.headers "Access-Control-Allow-Origin" = some "*" →
        Line.corsValue "*" ∈ (check_api_status url (.success resp)).2
        ∧ Line.corsAllOrigins ∈ (check_api_status url (.success resp)).2)
    ∧ (∀ w, headersGet resp.headers "Access-Control-Allow-Origin" = some w →
        w ≠ "*" → w ≠ "" →
        Line.corsValue w ∈ (check_api_status url (.success resp)).2
        ∧ Line.corsSingleOrigin w ∈ (check_api_status url (.success resp)).2)
    ∧ (headersGet resp.headers "Access-Control-Allow-Origin" = none
        ∨ headersGet resp.headers "Access-Control-Allow-Origin" = some "" →
        Line.corsMissing ∈ (check_api_status url (.success resp)).2
        ∧ Line.corsMissingHint ∈ (check_api_status url (.success resp)).2) := by
  refine ⟨?_, ?_, ?_, ?_⟩
  · intro h
    have hl : lowerStr "Access-Control-Allow-Origin" = "access-control-allow-origin" := by
      decide
    simp [headersGet, List.find?, hl, h]
  · intro h
    constructor <;> simp [check_api_status, h, corsLines]
  · intro w hw hne hem
    constructor <;> simp [check_api_status, hw, corsLines, hne, hem]
  · intro h
    rcases h with h | h <;> constructor <;> simp [check_api_status, h, corsLines]

/-- Witness for the amended C5 at concrete inputs exercising the
case-insensitive lookup and all three reporting branches. -/
theorem C5_cors_inspection_amended_witness :
    headersGet [("ACCESS-CONTROL-ALLOW-ORIGIN", "https://a.example")]
        "Access-Control-Allow-Origin" = some "https://a.example"
    ∧ Line.corsAllOrigins ∈ (check_api_status "u" (.success respOk)).2
    ∧ Line.corsSingleOrigin "https://example.com"
        ∈ (check_api_status "u" (.success respSingle)).2
    ∧ Line.corsMissing ∈ (check_api_status "u" (.success resp404)).2 :=
  ⟨(C5_cors_inspection_amended "u" respOk "ACCESS-CONTROL-ALLOW-ORIGIN"
      "https://a.example").1 (by decide),
   ((C5_cors_inspection_amended "u" respOk "k" "v").2.1 (by decide)).2,
   ((C5_cors_inspection_amended "u" respSingle "k" "v").2.2.1
      "https://example.com" (by decide) (by decide) (by decide)).2,
   ((C5_cors_inspection_amended "u" resp404 "k" "v").2.2.2
      (Or.inl (by decide))).1⟩

/-- Claim C6: for every received response whose body parses as JSON, the
report states the body is valid JSON and prints a pretty-printed rendering
of the parsed structure truncated to the first 500 characters of the
serialization, followed by the truncation marker. -/
theorem C6_valid_json_preview (url : String) (resp : Response) (data : JsonValue)
    (h : resp.jsonBody = some data) :
    Line.bodyValidJson ∈ (check_api_status url (.success resp)).2
    ∧ Line.bodyJsonPreview (pySlice (dumps data) 500)
        ∈ (check_api_status url (.success resp)).2
    ∧ render (Line.bodyJsonPreview (pySlice (dumps data) 500))
        = "   - 미리보기: " ++ pySlice (dumps data) 500 ++ "..." := by
  refine ⟨?_, ?_, rfl⟩ <;> simp [check_api_status, bodyLines, h]

/-- Witness for C6 at a concrete response with a JSON body. -/
theorem C6_valid_json_preview_witness :
    Line.bodyValidJson ∈ (check_api_status "u" (.success respOk)).2
    ∧ Line.bodyJsonPreview (pySlice (dumps (JsonValue.obj [])) 500)
        ∈ (check_api_status "u" (.success respOk)).2 :=
  ⟨(C6_valid_json_preview "u" respOk (JsonValue.obj []) rfl).1,
   (C6_valid_json_preview "u" respOk (JsonValue.obj []) rfl).2.1⟩

/-- Claim C7: for every received response whose body fails to parse as
JSON, the decode failure is a reported outcome, not an exception: the
report states the body is not JSON, prints the first 300 characters of the
raw body text as a preview, and the function still returns its full
report. -/
theorem C7_not_json_preview (url : String) (resp : Response)
    (h : resp.jsonBody = none) :
    Line.bodyNotJson ∈ (check_api_status url (.success resp)).2
    ∧ Line.bodyRawPreview (pySlice resp.text 300)
        ∈ (check_api_status url (.success resp)).2
    ∧ render (Line.bodyRawPreview (pySlice resp.text 300))
        = "   - 실제 응답 내용 (앞부분): " ++ pySlice resp.text 300 ++ "..."
    ∧ (check_api_status url (.success resp)).2
        = [Line.start url, Line.statusHeader resp.status_code,
            classifyStatus resp.status_code, Line.corsTitle]
          ++ corsLines (headersGet resp.headers "Access-Control-Allow-Origin")
          ++ [Line.bodyTitle, Line.bodyNotJson,
              Line.bodyRawPreview (pySlice resp.text 300)] := by
  refine ⟨?_, ?_, rfl, ?_⟩ <;> simp [check_api_status, bodyLines, h]

/-- Witness for C7 at a concrete response with a non-JSON body. -/
theorem C7_not_json_preview_witness :
    Line.bodyNotJson ∈ (check_api_status "u" (.success resp404)).2
    ∧ Line.bodyRawPreview (pySlice resp404.text 300)
        ∈ (check_api_status "u" (.success resp404)).2 :=
  ⟨(C7_not_json_preview "u" resp404 rfl).1,
   (C7_not_json_preview "u" resp404 rfl).2.1⟩

/-- Claim C8: each invocation issues exactly one HTTP GET request to the
given URL with a 5-second timeout, regardless of the outcome. -/
theorem C8_single_request (url : String) (fetch : FetchResult) :
    (check_api_status url fetch).1 = [⟨url, 5⟩]
    ∧ (check_api_status url fetch).1.length = 1 :=
  ⟨rfl, rfl⟩

/-- Claim C9: when the `Access-Control-Allow-Origin` header is present
with the empty string as its value, the absence branch runs (presence is
tested by Python truthiness): the report flags the header as absent and no
present-header line is printed. -/
theorem C9_empty_cors_treated_absent (url : String) (resp : Response)
    (h : headersGet resp.headers "Access-Control-Allow-Origin" = some "") :
    Line.corsMissing ∈ (check_api_status url (.success resp)).2
    ∧ Line.corsMissingHint ∈ (check_api_status url (.success resp)).2
    ∧ (check_api_status url (.success resp)).2.countP isCorsPresentLine = 0 := by
  refine ⟨?_, ?_, ?_⟩
  · simp [check_api_status, h, corsLines]
  · simp [check_api_status, h, corsLines]
  · simp only [check_api_status, h, corsLines, List.countP_cons, List.countP_append,
      isCorsPresent_classify, countP_corsPresent_bodyLines]
    norm_num [isCorsPresentLine]

/-- Witness for C9 at the concrete response with an empty-valued header. -/
theorem C9_empty_cors_treated_absent_witness :
    Line.corsMissing ∈ (check_api_status "u" (.success respEmptyCors)).2
    ∧ Line.corsMissingHint ∈ (check_api_status "u" (.success respEmptyCors)).2 :=
  ⟨(C9_empty_cors_treated_absent "u" respEmptyCors (by decide)).1,
   (C9_empty_cors_treated_absent "u" respEmptyCors (by decide)).2.1⟩

/-- Claim C10: the truncation marker is appended unconditionally to both
previews: in the valid-JSON branch it follows the serialized structure
even when that is 500 characters or shorter, and in the not-JSON branch it
follows the raw body even when that is 300 characters or shorter. -/
theorem C10_truncation_marker (url : String) (resp : Response) (data : JsonValue) :
    (resp.jsonBody = some data → (dumps data).data.length ≤ 500 →
      Line.bodyJsonPreview (dumps data) ∈ (check_api_status url (.success resp)).2
      ∧ render (Line.bodyJsonPreview (dumps data))
          = "   - 미리보기: " ++ dumps data ++ "...")
    ∧ (resp.jsonBody = none → resp.text.data.length ≤ 300 →
      Line.bodyRawPreview resp.text ∈ (check_api_status url (.success resp)).2
      ∧ render (Line.bodyRawPreview resp.text)
          = "   - 실제 응답 내용 (앞부분): " ++ resp.text ++ "...") := by
  constructor
  · intro hj hl
    have hs := pySlice_eq_of_length_le (dumps data) 500 hl
    exact ⟨by simp [check_api_status, bodyLines, hj, hs], rfl⟩
  · intro hj hl
    have hs := pySlice_eq_of_length_le resp.text 300 hl
    exact ⟨by simp [check_api_status, bodyLines, hj, hs], rfl⟩

/-- Witness for C10 at concrete short previews in both branches. -/
theorem C10_truncation_marker_witness :
    (dumps (JsonValue.obj [])).data.length ≤ 500
    ∧ Line.bodyJsonPreview (dumps (JsonValue.obj []))
        ∈ (check_api_status "u" (.success respOk)).2
    ∧ resp404.text.data.length ≤ 300
    ∧ Line.bodyRawPreview resp404.text
        ∈ (check_api_status "u" (.success resp404)).2 :=
  ⟨by decide,
   ((C10_truncation_marker "u" respOk (JsonValue.obj [])).1 rfl (by decide)).1,
   by decide,
   ((C10_truncation_marker "u" resp404 (JsonValue.obj [])).2 rfl (by decide)).1⟩
